import Mathlib

/-!
A shallow embedding of `src/iup/element.rs` from the iup-rust repository.

The Rust file wraps raw IUP handles (`*mut iup_sys::Ihandle`) in typed wrapper
structs.  Every typed wrapper is generated by the `impl_element_nofrom!`
code-generation template and is a one-field tuple struct around the raw
pointer, exactly like the type-erased `Handle`; we therefore embed all of them
as the single structure `Wrapper` below, and represent the compile-time type
parameter `E : Element` of the generic functions by the one datum that
distinguishes the generated impls: the `&'static str` returned by
`E::target_classname()` (the `$classname` argument of the template), passed
explicitly as a `String`.

The external native object system (the IUP C library) is embedded as an
explicit state record `NativeState`; each `iup_sys` entry point the claims
touch becomes a Lean function reading or transforming that state.  Raw
pointers are embedded as `Nat`, with `0` playing the null pointer.  A Rust
function that can panic is embedded with an `Option` result, `none` standing
for the panic (no normal return).  Class-name strings cross the FFI as byte
strings; all strings involved are UTF-8 on both sides, where byte-for-byte
equality coincides with `String` equality, so class names are embedded as
`String`.
-/

namespace Iup

/-- A raw IUP handle, `*mut iup_sys::Ihandle`.  `0` models the null pointer;
any other value is an opaque handle identity. -/
abbrev RawHandle := Nat

/-- Return values of an IUP callback (`iup_sys::CallbackReturn`).  Only
`Default` is produced by the code under verification. -/
inductive CallbackReturn where
  | Default
  | Close
deriving DecidableEq

/-- The observable state of the external native object system, as far as the
code in `element.rs` interacts with it:

* `classNameOf`: the live class-name byte string `IupGetClassName` reports for
  each handle (the spec guarantees it is never null for a live handle);
* `attribOf`: the attribute table consulted by `IupGetAttribute`, with `none`
  standing for a `NULL` result (attribute unset) and `some s` for a non-null
  C string `s` (possibly empty);
* `destroyCbCount`: how many times `IupSetCallback(h, "DESTROY_CB", ...)` has
  been invoked for each handle — the instrumentation that lets us state how
  often the destruction notification is registered;
* `registry`: the per-handle callback-registry entry of the Rust binding
  (`none` = no entry; `some n` = an entry holding `n` registered closures);
* `mapStatus`, `showStatus`: the status codes the native `IupMap` / `IupShow`
  calls return for each handle. -/
structure NativeState where
  classNameOf : RawHandle → String
  attribOf : RawHandle → String → Option String
  destroyCbCount : RawHandle → Nat
  registry : RawHandle → Option Nat
  mapStatus : RawHandle → Int
  showStatus : RawHandle → Int

/-- `iup_sys::IupGetClassName`: a pure query of the native system. -/
def IupGetClassName (st : NativeState) (ih : RawHandle) : String :=
  st.classNameOf ih

/-- `iup_sys::IupGetAttribute`: a pure query; `none` models a `NULL` return. -/
def IupGetAttribute (st : NativeState) (ih : RawHandle) (name : String) :
    Option String :=
  st.attribOf ih name

/-- `iup_sys::IupSetStrAttribute`: stores (a copy of) `value` under `name` for
handle `ih`. -/
def IupSetStrAttribute (st : NativeState) (ih : RawHandle)
    (name value : String) : NativeState :=
  { st with
    attribOf := fun h n =>
      if h = ih ∧ n = name then some value else st.attribOf h n }

/-- `iup_sys::IupSetCallback`: registers a native callback.  The embedding
tracks the one registration the verified code performs — the destruction
notification `"DESTROY_CB"` (whose installed callback is `on_element_destroy`)
— by counting how often it is registered per handle. -/
def IupSetCallback (st : NativeState) (ih : RawHandle) (name : String) :
    NativeState :=
  { st with
    destroyCbCount := fun h =>
      if h = ih ∧ name = "DESTROY_CB" then st.destroyCbCount h + 1
      else st.destroyCbCount h }

/-- `iup_sys::IupMap`: returns the native status code for the handle. -/
def IupMap (st : NativeState) (ih : RawHandle) : Int :=
  st.mapStatus ih

/-- `iup_sys::IupShow`: returns the native status code for the handle. -/
def IupShow (st : NativeState) (ih : RawHandle) : Int :=
  st.showStatus ih

/-- A wrapper value: one raw handle in a one-field struct.  This embeds both
the type-erased `Handle(*mut iup_sys::Ihandle)` and every typed wrapper
`$ty_path(*mut iup_sys::Ihandle)` generated by `impl_element_nofrom!` (all of
them are this same shape; they differ only in their `target_classname()`,
which the embedding passes separately). -/
structure Wrapper where
  raw : RawHandle
deriving DecidableEq

/-- `Element::dup` as generated by `impl_element_nofrom!`:
`$ty_path(self.0)` — another alias of the same raw handle. -/
def dup (e : Wrapper) : Wrapper :=
  Wrapper.mk e.raw

/-- `Element::from_raw_unchecked` as generated by `impl_element_nofrom!`:
`$ty_path(ih)` — wraps the raw handle, performing no native call. -/
def from_raw_unchecked (ih : RawHandle) : Wrapper :=
  Wrapper.mk ih

/-- `Element::classname`: `CStr::from_ptr(IupGetClassName(self.raw()))`. -/
def classname (st : NativeState) (e : Wrapper) : String :=
  IupGetClassName st e.raw

/-- `Handle::from_element`: `Handle(elem.raw())`. -/
def from_element (e : Wrapper) : Wrapper :=
  Wrapper.mk e.raw

/-- The `target_classname()` of the erased `Handle` type itself, from
`impl_element_nofrom!(Handle, "__iuprusthandle")`. -/
def Handle.target_classname : String :=
  "__iuprusthandle"

/-- `Handle::can_downcast::<E>`: compares the live class name of the handle
(byte-for-byte) with `E::target_classname()` (here the parameter `cls`), and
also succeeds when the target is the reserved sentinel `"__iuprusthandle"`.
Source:
`lhs == rhs || rhs == b"__iuprusthandle"`. -/
def can_downcast (st : NativeState) (cls : String) (h : Wrapper) : Bool :=
  let lhs := classname st h
  let rhs := cls
  lhs == rhs || rhs == "__iuprusthandle"

/-- `Handle::try_downcast::<E>`: `Ok(E::from_raw_unchecked(self.raw()))` when
`can_downcast` holds, `Err(self)` otherwise.  Its only native interaction is
the pure `IupGetClassName` query inside `can_downcast`, so the result needs no
state component. -/
def try_downcast (st : NativeState) (cls : String) (h : Wrapper) :
    Except Wrapper Wrapper :=
  if can_downcast st cls h then Except.ok (from_raw_unchecked h.raw)
  else Except.error h

/-- `Handle::try_downcast` with the native state threaded through, to make
frame properties statable: the body performs only the read-only
`IupGetClassName` query, so the state it returns is the state it was given. -/
def try_downcastS (st : NativeState) (cls : String) (h : Wrapper) :
    Except Wrapper Wrapper × NativeState :=
  (try_downcast st cls h, st)

/-- `Element::from_raw`: on a null handle the Rust code stops with a fatal
error (`none`, no wrapper produced, no native call made); otherwise it first
registers the `"DESTROY_CB"` destruction notification with the native system
and then delegates to `from_raw_unchecked`. -/
def from_raw (ih : RawHandle) (st : NativeState) :
    Option Wrapper × NativeState :=
  if ih = 0 then (none, st)
  else (some (from_raw_unchecked ih), IupSetCallback st ih "DESTROY_CB")

/-- A concrete native-system state used to instantiate theorems with
hypotheses: handle `1` is a live `"dialog"` with a `TITLE` attribute and an
explicitly empty `EMPTY` attribute, handle `2` is a live `"button"` with a
callback-registry entry of 3 closures. -/
def testState : NativeState where
  classNameOf := fun h => if h = 1 then "dialog" else if h = 2 then "button" else ""
  attribOf := fun h n =>
    if h = 1 ∧ n = "TITLE" then some "Hi"
    else if h = 1 ∧ n = "EMPTY" then some ""
    else none
  destroyCbCount := fun _ => 0
  registry := fun h => if h = 2 then some 3 else none
  mapStatus := fun h => if h = 1 then 1 else 0
  showStatus := fun h => if h = 1 then 1 else 0

/-- `std::ffi::CString::new`: fails (with `NulError`) exactly when the byte
string contains a NUL byte.  For a UTF-8 `String` a zero byte occurs in the
encoding exactly when the character `U+0000` occurs, so the check is on that
character; on success the C string carries the same bytes. -/
def CString.new (s : String) : Option String :=
  if s.toList.contains (Char.ofNat 0) then none else some s

/-- Modelled from the spec: the `string_from_c_str` helper used by
`Element::attrib` is defined outside `src/`; per the external-interface
section the native system hands back byte-strings which the binding re-shapes
into its own string type, so on the embedding's strings the conversion is the
identity. -/
def string_from_c_str (s : String) : String :=
  s

/-- `Element::attrib`: converts `name` to a C string (`.unwrap()` — a NUL
byte in `name` is a panic, embedded as the outer `none`), queries
`IupGetAttribute`, and maps a null result to `None` (`some none` here) and a
non-null C string to `Some` of the converted string (`some (some _)`). -/
def attrib (st : NativeState) (e : Wrapper) (name : String) :
    Option (Option String) :=
  match CString.new name with
  | none => none
  | some cname =>
    match IupGetAttribute st e.raw cname with
    | none => some none
    | some cvalue => some (some (string_from_c_str cvalue))

/-- `Element::set_attrib`: converts `name` and `value` to C strings
(`.unwrap()` — a NUL byte in either is a panic, embedded as `none`), calls
`IupSetStrAttribute`, and returns `self.dup()` together with the updated
native state. -/
def set_attrib (st : NativeState) (e : Wrapper) (name value : String) :
    Option (Wrapper × NativeState) :=
  match CString.new name with
  | none => none
  | some cname =>
    match CString.new value with
    | none => none
    | some cvalue => some (dup e, IupSetStrAttribute st e.raw cname cvalue)

/-- Modelled from the spec: the `errchk!` template invoked by `Element::map`
and `Element::show` is defined outside `src/` (in the crate root).  Per the
spec's external-interface section, a status code of `0` is a failure that
must be surfaced as an error and a nonzero status is success; the status is
passed through untranslated in meaning, only re-shaped into the idiomatic
result type (the error carries the code itself). -/
def errchk (status : Int) : Except Int Unit :=
  if status = 0 then Except.error status else Except.ok ()

/-- `Element::map`: `errchk!(IupMap(self.raw()))`. -/
def map (st : NativeState) (e : Wrapper) : Except Int Unit :=
  errchk (IupMap st e.raw)

/-- `Element::show`: `errchk!(IupShow(self.raw()))`. -/
def showElem (st : NativeState) (e : Wrapper) : Except Int Unit :=
  errchk (IupShow st e.raw)

/-- Modelled from the spec: `drop_callbacks` lives in `callback.rs`, outside
`src/`; per the spec it releases every callback closure registered for
exactly this handle and removes the registry entry, and is safe to invoke
when no entry exists. -/
def drop_callbacks (st : NativeState) (ih : RawHandle) : NativeState :=
  { st with registry := fun h => if h = ih then none else st.registry h }

/-- `on_element_destroy`: the destruction notification installed by
`from_raw`; it drops the callbacks registered for the handle and returns
`CallbackReturn::Default`. -/
def on_element_destroy (st : NativeState) (ih : RawHandle) :
    CallbackReturn × NativeState :=
  (CallbackReturn.Default, drop_callbacks st ih)

/-- One alias-constructing operation that is not `from_raw`: either a direct
`from_raw_unchecked` or a `try_downcast` (which uses `from_raw_unchecked`
internally). -/
inductive AliasOp where
  | fromRawUnchecked (ih : RawHandle)
  | tryDowncast (cls : String) (h : Wrapper)

/-- The native-state effect of one alias construction.
`from_raw_unchecked` is `$ty_path(ih)` — no native call at all — and
`try_downcast` performs only the read-only class-name query, so each step
hands the state through. -/
def aliasStep (op : AliasOp) (st : NativeState) : NativeState :=
  match op with
  | .fromRawUnchecked _ => st
  | .tryDowncast cls h => (try_downcastS st cls h).2

/-- The native-state effect of a sequence of alias constructions. -/
def aliasSteps (ops : List AliasOp) (st : NativeState) : NativeState :=
  ops.foldl (fun s op => aliasStep op s) st

/-- Claim C1: `h.try_downcast::<E>()` succeeds if and only if the live class
name of `h` equals `E::target_classname()` byte-for-byte or
`E::target_classname()` is the sentinel `"__iuprusthandle"`; in particular,
downcasting any erased handle to the generic `Handle` type always succeeds. -/
theorem C1_try_downcast_success_iff (st : NativeState) (cls : String)
    (h : Wrapper) :
    ((try_downcast st cls h).isOk = true ↔
      (classname st h = cls ∨ cls = "__iuprusthandle")) ∧
    (try_downcast st Handle.target_classname h).isOk = true := by
  constructor
  · unfold try_downcast can_downcast
    by_cases hc : classname st h = cls ∨ cls = "__iuprusthandle"
    · rcases hc with hc | hc <;>
        simp [hc, Except.isOk, Except.toBool]
    · push_neg at hc
      simp [hc.1, hc.2, Except.isOk, Except.toBool]
  · simp [try_downcast, can_downcast, Handle.target_classname, Except.isOk,
      Except.toBool]

/-- Claim C2: when the live class name differs from `E::target_classname()`
and the target is not the sentinel, `try_downcast` fails, the failure value is
the very input handle (hence it carries the identical raw pointer), and the
native state is unchanged. -/
theorem C2_try_downcast_mismatch_nondestructive (st : NativeState)
    (cls : String) (h : Wrapper) (hne : classname st h ≠ cls)
    (hsent : cls ≠ "__iuprusthandle") :
    try_downcastS st cls h = (Except.error h, st) ∧
    (Except.error h : Except Wrapper Wrapper) = Except.error ⟨h.raw⟩ := by
  refine ⟨?_, rfl⟩
  unfold try_downcastS try_downcast can_downcast
  simp [hne, hsent]

/-- Witness for C2 at a concrete input: handle `1` is a live `"dialog"`,
so downcasting it to a `"button"` wrapper fails and hands back the same
handle, with the state untouched. -/
theorem C2_witness :
    try_downcastS testState "button" ⟨1⟩ = (Except.error ⟨1⟩, testState) :=
  (C2_try_downcast_mismatch_nondestructive testState "button" ⟨1⟩
    (by decide) (by decide)).1

/-- Claim C3: erasing a typed wrapper `w` whose live native class name equals
its target class name and downcasting back to that class succeeds and yields a
wrapper with the same raw pointer as `w`. -/
theorem C3_erase_downcast_roundtrip (st : NativeState) (cls : String)
    (w : Wrapper) (hcls : classname st w = cls) :
    ∃ w', try_downcast st cls (from_element w) = Except.ok w' ∧
      w'.raw = w.raw := by
  refine ⟨⟨w.raw⟩, ?_, rfl⟩
  unfold try_downcast can_downcast from_element from_raw_unchecked
  simp [classname, IupGetClassName] at hcls ⊢
  simp [hcls]

/-- Witness for C3 at a concrete input: handle `1` is a live `"dialog"`;
erasing a `"dialog"` wrapper of it and downcasting back to `"dialog"`
succeeds with the same raw pointer. -/
theorem C3_witness :
    ∃ w', try_downcast testState "dialog" (from_element ⟨1⟩) = Except.ok w' ∧
      w'.raw = (⟨1⟩ : Wrapper).raw :=
  C3_erase_downcast_roundtrip testState "dialog" ⟨1⟩ (by decide)

/-- Claim C4: `Element::from_raw` stops fatally on the null handle — no
wrapper is produced and no native call is made; on a non-null handle it first
registers the `"DESTROY_CB"` destruction notification with the native system
and then delegates to `from_raw_unchecked`, yielding a wrapper whose raw
pointer is the input handle. -/
theorem C4_from_raw_null_fatal (st : NativeState) (ih : RawHandle) :
    (ih = 0 → from_raw ih st = (none, st)) ∧
    (ih ≠ 0 →
      from_raw ih st =
        (some (from_raw_unchecked ih), IupSetCallback st ih "DESTROY_CB") ∧
      (from_raw_unchecked ih).raw = ih) := by
  constructor
  · intro h0
    simp [from_raw, h0]
  · intro hne
    exact ⟨by simp [from_raw, hne], rfl⟩

/-- Counterexample to claim C5 as stated: for the NUL-containing attribute
name `"X\u0000"` the native table of `testState` reports no value (the null
pointer), so the claim predicts a normal return of `None` (`some none` in the
embedding), but `Element::attrib` panics in `CString::new(name).unwrap()`
before the native get-attribute call is ever made (`none` in the
embedding). -/
theorem C5_counterexample :
    IupGetAttribute testState 1 "X\u0000" = none ∧
    attrib testState ⟨1⟩ "X\u0000" = none ∧
    attrib testState ⟨1⟩ "X\u0000" ≠ some none := by
  refine ⟨rfl, rfl, fun hcontr => ?_⟩
  have h0 : attrib testState ⟨1⟩ "X\u0000" = none := rfl
  rw [h0] at hcontr
  exact Option.noConfusion hcontr

/-- Claim C5 (amended): for every attribute name free of NUL bytes (a name
with a NUL byte makes `attrib` panic before reaching the native system),
`Element::attrib` returns `None` exactly when the native get-attribute call
returns a null pointer, and `Some` of the converted string otherwise; an
explicitly empty native string yields `Some ""`, distinguishable from
`None`. -/
theorem C5_attrib_none_iff_native_null (st : NativeState) (e : Wrapper)
    (name : String)
    (hname : name.toList.contains (Char.ofNat 0) = false) :
    (attrib st e name = some none ↔ IupGetAttribute st e.raw name = none) ∧
    (∀ s, IupGetAttribute st e.raw name = some s →
      attrib st e name = some (some (string_from_c_str s))) ∧
    (IupGetAttribute st e.raw name = some "" →
      attrib st e name = some (some "") ∧ attrib st e name ≠ some none) := by
  have hname' : Char.ofNat 0 ∉ name.data := by
    simpa using hname
  have hc : CString.new name = some name := by
    simp [CString.new, hname']
  refine ⟨?_, ?_, ?_⟩
  · cases hv : IupGetAttribute st e.raw name <;>
      simp [attrib, hc, hv]
  · intro s hs
    simp [attrib, hc, hs, string_from_c_str]
  · intro hs
    simp [attrib, hc, hs, string_from_c_str]

/-- Witness for the amended C5 at concrete inputs: on `testState`, handle `1`
has no `COLOR` attribute (native null), so `attrib` returns `None`; its
`EMPTY` attribute is the explicit empty native string, so `attrib` returns
`Some ""`, distinguishable from `None`. -/
theorem C5_witness :
    ((attrib testState ⟨1⟩ "COLOR" = some none ↔
        IupGetAttribute testState (Wrapper.mk 1).raw "COLOR" = none) ∧
      (∀ s, IupGetAttribute testState (Wrapper.mk 1).raw "COLOR" = some s →
        attrib testState ⟨1⟩ "COLOR" = some (some (string_from_c_str s))) ∧
      (IupGetAttribute testState (Wrapper.mk 1).raw "COLOR" = some "" →
        attrib testState ⟨1⟩ "COLOR" = some (some "") ∧
        attrib testState ⟨1⟩ "COLOR" ≠ some none)) ∧
    ((attrib testState ⟨1⟩ "EMPTY" = some none ↔
        IupGetAttribute testState (Wrapper.mk 1).raw "EMPTY" = none) ∧
      (∀ s, IupGetAttribute testState (Wrapper.mk 1).raw "EMPTY" = some s →
        attrib testState ⟨1⟩ "EMPTY" = some (some (string_from_c_str s))) ∧
      (IupGetAttribute testState (Wrapper.mk 1).raw "EMPTY" = some "" →
        attrib testState ⟨1⟩ "EMPTY" = some (some "") ∧
        attrib testState ⟨1⟩ "EMPTY" ≠ some none)) :=
  ⟨C5_attrib_none_iff_native_null testState ⟨1⟩ "COLOR" (by decide),
    C5_attrib_none_iff_native_null testState ⟨1⟩ "EMPTY" (by decide)⟩

/-- Claim C6: `Element::map` and `Element::show` return an explicit failure
result exactly when the native status code indicates failure (`0` per the
spec's convention), success on any nonzero status, and the failing status is
carried through untranslated inside the error. -/
theorem C6_map_show_surface_failure (st : NativeState) (e : Wrapper) :
    ((map st e).isOk = true ↔ IupMap st e.raw ≠ 0) ∧
    ((showElem st e).isOk = true ↔ IupShow st e.raw ≠ 0) ∧
    (IupMap st e.raw = 0 → map st e = Except.error (IupMap st e.raw)) ∧
    (IupShow st e.raw = 0 → showElem st e = Except.error (IupShow st e.raw)) := by
  refine ⟨?_, ?_, ?_, ?_⟩
  · by_cases h : IupMap st e.raw = 0 <;>
      simp [map, errchk, h, Except.isOk, Except.toBool]
  · by_cases h : IupShow st e.raw = 0 <;>
      simp [showElem, errchk, h, Except.isOk, Except.toBool]
  · intro h
    simp [map, errchk, h]
  · intro h
    simp [showElem, errchk, h]

/-- Every alias-constructing step other than `from_raw` leaves the native
state exactly as it was: `from_raw_unchecked` makes no native call and
`try_downcast` only performs the read-only class-name query. -/
theorem aliasStep_id (op : AliasOp) (st : NativeState) :
    aliasStep op st = st := by
  cases op <;> rfl

/-- A whole sequence of alias-constructing steps leaves the native state
unchanged. -/
theorem aliasSteps_id (ops : List AliasOp) (st : NativeState) :
    aliasSteps ops st = st := by
  induction ops generalizing st with
  | nil => rfl
  | cons op rest ih =>
    have h1 : aliasSteps (op :: rest) st = aliasSteps rest (aliasStep op st) :=
      rfl
    rw [h1, aliasStep_id, ih]

/-- Claim C7: after one `from_raw` on a non-null handle, constructing any
number of further aliases via `from_raw_unchecked` or `try_downcast` performs
no native registration at all (the state is untouched), so the destruction
notification for the handle has been registered exactly once more than before
the `from_raw`. -/
theorem C7_hook_installed_once (st : NativeState) (ih : RawHandle)
    (ops : List AliasOp) (hih : ih ≠ 0) :
    aliasSteps ops (from_raw ih st).2 = (from_raw ih st).2 ∧
    (aliasSteps ops (from_raw ih st).2).destroyCbCount ih =
      st.destroyCbCount ih + 1 := by
  refine ⟨aliasSteps_id _ _, ?_⟩
  rw [aliasSteps_id]
  simp [from_raw, hih, IupSetCallback]

/-- Witness for C7 at a concrete input: `from_raw` on handle `1`, followed by
a `from_raw_unchecked` alias and a `try_downcast` attempt, leaves the state
as `from_raw` left it, with the destruction notification registered once. -/
theorem C7_witness :
    aliasSteps [AliasOp.fromRawUnchecked 1, AliasOp.tryDowncast "button" ⟨1⟩]
        (from_raw 1 testState).2 = (from_raw 1 testState).2 ∧
    (aliasSteps [AliasOp.fromRawUnchecked 1,
        AliasOp.tryDowncast "button" ⟨1⟩]
        (from_raw 1 testState).2).destroyCbCount 1 =
      testState.destroyCbCount 1 + 1 :=
  C7_hook_installed_once testState 1
    [AliasOp.fromRawUnchecked 1, AliasOp.tryDowncast "button" ⟨1⟩]
    (by decide)

/-- Counterexample to claim C8 as stated: with the NUL-containing attribute
name `"\u0000"`, `set_attrib` does not return normally — it panics in
`CString::new(name).unwrap()` (the `none` of the embedding) — so "succeeds
for every name string and value string" fails. -/
theorem C8_counterexample :
    set_attrib testState ⟨1⟩ "\u0000" "v" = none ∧
    (set_attrib testState ⟨1⟩ "\u0000" "v").isSome = false := by
  exact ⟨rfl, rfl⟩

/-- Claim C8 (amended): for every attribute name and value free of NUL bytes
(a NUL byte in either makes `set_attrib` panic in the C-string conversion),
`set_attrib` returns normally, and the native set-attribute boundary reports
no failure: the result carries only the duplicate wrapper and the updated
native state, with no failure signal observable by the caller. -/
theorem C8_set_attrib_succeeds (st : NativeState) (e : Wrapper)
    (name value : String)
    (hn : name.toList.contains (Char.ofNat 0) = false)
    (hv : value.toList.contains (Char.ofNat 0) = false) :
    set_attrib st e name value =
      some (dup e, IupSetStrAttribute st e.raw name value) := by
  have hn' : Char.ofNat 0 ∉ name.data := by
    simpa using hn
  have hv' : Char.ofNat 0 ∉ value.data := by
    simpa using hv
  simp [set_attrib, CString.new, hn', hv']

/-- Witness for the amended C8 at a concrete input. -/
theorem C8_witness :
    set_attrib testState ⟨1⟩ "TITLE" "Hello" =
      some (dup ⟨1⟩,
        IupSetStrAttribute testState (Wrapper.mk 1).raw "TITLE" "Hello") :=
  C8_set_attrib_succeeds testState ⟨1⟩ "TITLE" "Hello" (by decide) (by decide)

/-- Claim C9: invoking the destruction notification for a handle that has no
callback-registry entry does not fail, changes nothing — the resulting state
is the input state — and still returns `CallbackReturn::Default`. -/
theorem C9_destroy_hook_idempotent (st : NativeState) (ih : RawHandle)
    (h : st.registry ih = none) :
    on_element_destroy st ih = (CallbackReturn.Default, st) := by
  have hreg : (fun h2 => if h2 = ih then none else st.registry h2) =
      st.registry := by
    funext h2
    by_cases hc : h2 = ih
    · subst hc
      simp [h]
    · simp [hc]
  simp [on_element_destroy, drop_callbacks, hreg]

/-- Witness for C9 at a concrete input: handle `1` has no registry entry in
`testState`, and firing the destruction notification for it returns the
default callback result with the state unchanged. -/
theorem C9_witness :
    on_element_destroy testState 1 = (CallbackReturn.Default, testState) :=
  C9_destroy_hook_idempotent testState 1 (by decide)

/-- Counterexample to claim C10 as stated: with a NUL byte in the value
string, `set_attrib` panics in `CString::new(value).unwrap()` and returns no
wrapper at all, so "for every element, `set_attrib` returns a new wrapper
whose raw pointer equals the receiver's" fails. -/
theorem C10_counterexample :
    set_attrib testState ⟨2⟩ "TITLE" "a\u0000b" = none ∧
    (∀ p : Wrapper × NativeState,
      set_attrib testState ⟨2⟩ "TITLE" "a\u0000b" ≠ some p) := by
  have h0 : set_attrib testState ⟨2⟩ "TITLE" "a\u0000b" = none := rfl
  refine ⟨h0, fun p hp => ?_⟩
  rw [h0] at hp
  exact Option.noConfusion hp

/-- Claim C10 (amended): for every attribute name and value free of NUL bytes,
`set_attrib` returns a duplicate wrapper of the receiver — a new value of the
same type whose raw pointer equals the receiver's — enabling chaining, rather
than returning nothing. -/
theorem C10_set_attrib_returns_alias (st : NativeState) (e : Wrapper)
    (name value : String)
    (hn : name.toList.contains (Char.ofNat 0) = false)
    (hv : value.toList.contains (Char.ofNat 0) = false) :
    ∃ st', set_attrib st e name value = some (dup e, st') ∧
      (dup e).raw = e.raw := by
  refine ⟨IupSetStrAttribute st e.raw name value, ?_, rfl⟩
  have hn' : Char.ofNat 0 ∉ name.data := by
    simpa using hn
  have hv' : Char.ofNat 0 ∉ value.data := by
    simpa using hv
  simp [set_attrib, CString.new, hn', hv']

/-- Witness for the amended C10 at a concrete input. -/
theorem C10_witness :
    ∃ st', set_attrib testState ⟨2⟩ "NAME" "btn" = some (dup ⟨2⟩, st') ∧
      (dup ⟨2⟩).raw = (⟨2⟩ : Wrapper).raw :=
  C10_set_attrib_returns_alias testState ⟨2⟩ "NAME" "btn"
    (by decide) (by decide)

end Iup
